import Mathlib

/-!
Verification of the faxSort fax intake-and-processing pipeline.

The Python sources are shallowly embedded as Lean definitions:

* pure string manipulation (configuration parsing, prompt construction,
  page joining) is translated directly;
* every call into an external service (HTTP download, Tesseract OCR,
  Presidio analysis, the Anthropic API, the O365 mailer, strftime) is a
  field of an explicit oracle record, returning `Except` where the Python
  call can raise;
* `try/except` blocks become `match` on those `Except` values;
* the local filesystem and the observable actions of one pipeline run are
  carried in an explicit state record (`PState`); the `events` component is
  ghost instrumentation used only to state properties (invocation counts,
  notification attempts), it does not influence control flow.

Machine integers do not occur in any property below; byte strings are kept
abstract.
-/

/-- Python string slicing `s[:n]` over code points. -/
def pySlice (s : String) (n : Nat) : String := String.mk (s.data.take n)

/-- Python `str.split(sep)` for a one-character separator, over the code
point list (the sources only split on "," and ":").  Splitting the empty
string yields `[""]`, and the result is never the empty list. -/
def pySplitChar (sep : Char) : List Char → List (List Char)
  | [] => [[]]
  | c :: rest =>
    let r := pySplitChar sep rest
    if c = sep then [] :: r
    else
      match r with
      | [] => [[c]]
      | grp :: tl => (c :: grp) :: tl

/-- Python `str.split(sep)` for a one-character separator. -/
def pySplit (sep : Char) (s : String) : List String :=
  (pySplitChar sep s.data).map String.mk

/-- Python `str.strip()`: remove leading and trailing whitespace. -/
def pyStrip (s : String) : String :=
  String.mk
    (((s.data.dropWhile Char.isWhitespace).reverse.dropWhile
        Char.isWhitespace).reverse)

/-- Python `sep.join(xs)`. -/
def pyJoin (sep : String) : List String → String
  | [] => ""
  | [x] => x
  | x :: y :: xs => x ++ sep ++ pyJoin sep (y :: xs)

/-- Python dict assignment semantics on an association list: assigning to an
existing key overwrites its value in place, a fresh key is appended. -/
def dictInsert (d : List (String × String)) (k v : String) :
    List (String × String) :=
  match d with
  | [] => [(k, v)]
  | (k0, v0) :: rest =>
    if k0 = k then (k0, v) :: rest else (k0, v0) :: dictInsert rest k v

/-- Python dict lookup on the association-list model. -/
def dictLookup (d : List (String × String)) (k : String) : Option String :=
  match d with
  | [] => none
  | (k0, v0) :: rest => if k0 = k then some v0 else dictLookup rest k

/-! ### Sender mapping construction

Embeds `FaxProcessor.__init__` lines 31-36 of `processor/fax_processor.py`
(the identical parsing loop also appears in `main.py` lines 100-106):

```
self.sender_mappings = \x7b\x7d
mappings_str = os.getenv("SENDER_MAPPINGS", "")
if mappings_str:
    for mapping in mappings_str.split(","):
        sender, doc_type = mapping.split(":")
        self.sender_mappings[sender.strip()] = doc_type.strip()
```

`mapping.split(":")` yielding anything but exactly two pieces makes the
tuple unpacking raise `ValueError`, which propagates out of `__init__`.
-/

/-- Loop body of the sender-mapping parser: processes the comma-separated
entries in order, accumulating the dict; the first entry that does not
split on ":" into exactly two pieces raises (ValueError from unpacking). -/
def buildMappingsLoop :
    List String → List (String × String) →
    Except String (List (String × String))
  | [], acc => .ok acc
  | mapping :: rest, acc =>
    match pySplit ':' mapping with
    | [sender, doc_type] =>
      buildMappingsLoop rest (dictInsert acc (pyStrip sender) (pyStrip doc_type))
    | _ => .error "ValueError: mapping.split produced a tuple of wrong size"

/-- Sender-mapping construction from the `SENDER_MAPPINGS` configuration
string, exactly as in `FaxProcessor.__init__`: the empty string yields the
empty dict, otherwise the comma-separated entries are parsed in order. -/
def buildSenderMappings (mappings_str : String) :
    Except String (List (String × String)) :=
  if mappings_str = "" then .ok []
  else buildMappingsLoop (pySplit ',' mappings_str) []

/-- Statement-side characterization (from the amended reading of the
sender-mapping claim): the value bound to stripped key `k` after parsing a
list of well-formed entries is the value of the LAST entry whose stripped
sender equals `k` — later entries override earlier ones. -/
def entriesLookup : List String → String → Option String
  | [], _ => none
  | e :: rest, k =>
    match entriesLookup rest k with
    | some v => some v
    | none =>
      match pySplit ':' e with
      | [sender, doc_type] =>
        if pyStrip sender = k then some (pyStrip doc_type) else none
      | _ => none

/-! ### Document classifier

Embeds `classify_text` of `processor/classifier.py`.  The environment
variables read by the function are collected in `ClassifierEnv` (a `none`
field models an unset variable, with `os.getenv` defaults applied at the
use site as in the source).  `anthropic.messages.create` — including
network errors, rate limiting, and a malformed response making
`message.content[0].text` raise — is the oracle `AnthropicOracle.create`,
producing the response text or an error.
-/

/-- Environment variables consumed by `classify_text`; `none` models an
unset variable. -/
structure ClassifierEnv where
  classification_categories : Option String
  default_response : Option String
  keyword_rules : Option String
  keyword_rules_additional : Option String
  prompt_intro : Option String
  prompt_instructions : Option String
deriving DecidableEq, Repr

/-- Python `os.getenv(name, default)`. -/
def getenvD (v : Option String) (d : String) : String := v.getD d

/-- Python `str(list_of_strings)`: the classifier prompt interpolates the
raw list `keyword_rules_additional`, which Python renders with brackets
and quoted elements. -/
def pyListRepr (xs : List String) : String :=
  "[" ++ pyJoin ", " (xs.map (fun s => "\x27" ++ s ++ "\x27")) ++ "]"

/-- The bullet join `"\n".join(f"•  ..." for ...)` used for both the
category list and the keyword rules. -/
def buildBullets (xs : List String) : String :=
  pyJoin "\n" (xs.map (fun x => "•  " ++ x))

/-- Default text of `PROMPT_INTRO` in the source. -/
def promptIntroDefault : String :=
  "Based on the provided text, classify the associated document by selecting only one of the following categories"

/-- Default text of `PROMPT_INSTRUCTIONS` in the source. -/
def promptInstructionsDefault : String :=
  "Your response should be the exact name of the classification from the list above, and nothing more. Do not include any explanations or additional text."

/-- The f-string prompt of `classify_text` (classifier.py lines 41-57),
with the literal indentation of the triple-quoted source string.  Only the
first 4000 code points of the document text are interpolated
(`text[:4000]`). -/
def buildPrompt (env : ClassifierEnv) (text : String) : String :=
  let categories := pySplit ',' (getenvD env.classification_categories "")
  let default_response := getenvD env.default_response "Uncategorized"
  let keyword_rules := pySplit ',' (getenvD env.keyword_rules "")
  let keyword_rules_additional :=
    pySplit ',' (getenvD env.keyword_rules_additional "")
  let category_bullets := buildBullets categories
  let keyword_instructions := buildBullets keyword_rules
  "\n        " ++ getenvD env.prompt_intro promptIntroDefault ++
  "\n\n        Categories:\n        " ++ category_bullets ++
  "\n        \n        " ++
  getenvD env.prompt_instructions promptInstructionsDefault ++
  "\n\n        Pay special attention to these keyword rules:\n        " ++
  keyword_instructions ++ "\n        " ++
  pyListRepr keyword_rules_additional ++
  "\n\n        If none of the above classifications match, return \"" ++
  default_response ++ "\".\n\n        Document text:\n        " ++
  pySlice text 4000 ++ "\n        "

/-- The Anthropic API call: prompt to response text (`message.content[0].text`)
or an error for any internal failure. -/
structure AnthropicOracle where
  create : String → Except String String

/-- The classification dict returned by `classify_text` and by the known
sender fast path; in both producers the dict holds exactly the key
`document_type`, so it is modelled as this one-field record (and the dict
is never empty, hence always truthy). -/
structure Classification where
  document_type : String
deriving DecidableEq, Repr

/-- Embeds `classify_text` (classifier.py lines 10-78): build the prompt
from environment configuration, call the API, and return the stripped
response text as the document type.  The `except` clause of the source
logs and RE-RAISES, so every internal failure propagates to the caller —
modelled by the `Except.error` result. -/
def classify_text (env : ClassifierEnv) (o : AnthropicOracle)
    (text : String) : Except String Classification :=
  let categories := pySplit ',' (getenvD env.classification_categories "")
  if categories = [] then
    -- dead branch: str.split never returns an empty list, in Python as here
    .error "ValueError: CLASSIFICATION_CATEGORIES must be set in environment variables"
  else
    match o.create (buildPrompt env text) with
    | .error e => .error e
    | .ok respText => .ok ⟨pyStrip respText⟩

/-! ### PHI redactor

Embeds `PHIRedactor.redact_phi` and `_summarize_redactions` of
`processor/phi_redactor.py`.  The Presidio analyzer and anonymizer are the
oracle; the entity list they may return carries the fields the summary
copies (`end` is a Lean keyword, the field is spelled `stop`).
-/

/-- One Presidio `RecognizerResult` as consumed by `_summarize_redactions`;
the Python attribute `end` is spelled `stop` here. -/
structure AnalyzerResult where
  entity_type : String
  start : Nat
  stop : Nat
  score : Float
deriving Repr

/-- One element of the redaction summary produced by
`_summarize_redactions`. -/
structure RedactedElement where
  type : String
  start : Nat
  stop : Nat
  score : Float
deriving Repr

/-- Embeds `PHIRedactor._summarize_redactions`. -/
def summarizeRedactions (rs : List AnalyzerResult) : List RedactedElement :=
  rs.map (fun r => ⟨r.entity_type, r.start, r.stop, r.score⟩)

/-- The Presidio engines used by `redact_phi`; either call can raise. -/
structure PresidioOracle where
  analyze : String → Except String (List AnalyzerResult)
  anonymize : String → List AnalyzerResult → Except String String

/-- The dict returned by `redact_phi`; the `error` key exists only in the
failure branch, hence `Option`. -/
structure RedactedInfo where
  redacted_text : String
  redacted_elements : List RedactedElement
  redaction_count : Nat
  error : Option String
deriving Repr

/-- Embeds `PHIRedactor.redact_phi` (phi_redactor.py lines 39-78): analyze,
anonymize, and summarize; any internal failure is caught and the ORIGINAL
text is returned with a count of zero and the error recorded.  The Lean
result type is a plain record, not `Except`: the function is total, which
is the never-raises contract. -/
def redact_phi (o : PresidioOracle) (text : String) : RedactedInfo :=
  match o.analyze text with
  | .error e => ⟨text, [], 0, some e⟩
  | .ok analyzer_results =>
    match o.anonymize text analyzer_results with
    | .error e => ⟨text, [], 0, some e⟩
    | .ok anonymized_text =>
      ⟨anonymized_text, summarizeRedactions analyzer_results,
        analyzer_results.length, none⟩

/-! ### OCR

Embeds `process_tiff` and `process_page` of `processor/ocr.py`.  A decoded
TIFF is a list of frames of an abstract type; `image.seek(i)` past the
last frame raises `EOFError`, which the source catches to end the
collection loop after at most 1000 iterations (`for i in range(1000)`).
Per-page Tesseract invocation is an oracle; `asyncio.gather` propagates
the first page failure, as does the re-raising `except` of both
functions. -/

/-- Page separator of `process_tiff`. -/
def pageBreakMarker : String := "\n\n=== PAGE BREAK ===\n\n"

/-- The frame-collection loop of `process_tiff`: starting at frame `i`
with `fuel` iterations remaining, append frames until `seek` raises
`EOFError` (modelled by `get?` returning `none`) or the fuel (the
`range(1000)` safety limit) is exhausted. -/
def collectPages {Frame : Type} (frames : List Frame) :
    Nat → Nat → List Frame
  | _, 0 => []
  | i, fuel + 1 =>
    match frames.get? i with
    | none => []
    | some page => page :: collectPages frames (i + 1) fuel

/-- Embeds `process_page`: run Tesseract on one page and strip the result;
a Tesseract failure is logged and re-raised. -/
def process_page {Frame : Type} (ocr : Frame → Except String String)
    (page : Frame) (page_num : Nat) : Except String String :=
  match ocr page with
  | .ok text => .ok (pyStrip text)
  | .error e =>
    .error (e ++ " (page " ++ toString (page_num + 1) ++ ")")

/-- OCR of the collected pages in page order; the first failing page
aborts the whole extraction (`asyncio.gather` semantics). -/
def ocrPagesLoop {Frame : Type} (ocr : Frame → Except String String) :
    List Frame → Nat → Except String (List String)
  | [], _ => .ok []
  | page :: rest, i =>
    match process_page ocr page i with
    | .error e => .error e
    | .ok t =>
      match ocrPagesLoop ocr rest (i + 1) with
      | .error e => .error e
      | .ok ts => .ok (t :: ts)

/-- Embeds `process_tiff` (ocr.py lines 21-45) on a decoded frame list:
collect at most the first 1000 frames, OCR each page, and join the page
texts with the page-break marker. -/
def process_tiff {Frame : Type} (ocr : Frame → Except String String)
    (frames : List Frame) : Except String String :=
  match ocrPagesLoop ocr (collectPages frames 0 1000) 0 with
  | .error e => .error e
  | .ok texts => .ok (pyJoin pageBreakMarker texts)

/-! ### The fax processing pipeline

Embeds `FaxProcessor` of `processor/fax_processor.py` and the inlined
per-fax processing of `process_new_faxes` in `main.py`.

A `FaxRecord` models one well-formed fax dict from the provider: `id`
present, `time` an int or numeric string (the field holds the coerced
value), `fromNameAddressBook` the value of `fax.get(..., "")`.  For such a
record the header lines 72-76 of `_process_single_fax` cannot raise, and
every callee of lines 78-86 catches its own exceptions, so the `except`
handler of line 88 — and with it `_handle_processing_failure` — is
unreachable; the embedding of `process_single_fax` therefore has no
failure branch, which is itself one of the verified findings.
(For a malformed dict the handler would raise `NameError` on the unbound
`pdf_filename`, so it is unreachable on that path too.)

`PState` carries the staging filesystem (`files`, the set of staged paths,
with `open(..., "wb")` and `os.remove` modelled as reliable) plus a ghost
`events` trace recording file writes, OCR / classifier / redactor
invocations, and every `send_fax_email` attempt with its document type and
outcome.  The trace is instrumentation for stating properties only.
-/

/-- Raw document bytes, kept abstract. -/
abbrev Bytes := List Nat

/-- One well-formed inbound fax event (see the section comment). -/
structure FaxRecord where
  id : String
  fromNameAddressBook : String
  time : Int
deriving DecidableEq, Repr

/-- Result of one `send_fax_email` call: returned `True`, returned
`False`, or raised. -/
inductive SendOutcome
  | sent
  | notSent
  | raised (e : String)
deriving DecidableEq, Repr

/-- Ghost events recorded by the instrumented pipeline. -/
inductive Ev
  | fileWrite (path : String)
  | ocrInvoked
  | classifyInvoked
  | redactInvoked
  | emailAttempt (document_type : String) (outcome : SendOutcome)
deriving DecidableEq, Repr

/-- Pipeline state: staged files present on disk, plus the ghost event
trace in chronological order. -/
structure PState where
  files : List String
  events : List Ev
deriving DecidableEq, Repr

/-- The state at the start of processing one record: empty staging area,
empty trace. -/
def initState : PState := ⟨[], []⟩

/-- Python `open(path, "wb").write(...)`: the path becomes present;
ghost-logged. -/
def writeFile (s : PState) (path : String) : PState :=
  { files := if path ∈ s.files then s.files else s.files ++ [path],
    events := s.events ++ [Ev.fileWrite path] }

/-- Python `os.path.exists`. -/
def fileExists (s : PState) (path : String) : Bool := s.files.contains path

/-- Python `os.remove`. -/
def removeFile (s : PState) (path : String) : PState :=
  { s with files := s.files.erase path }

/-- Append one ghost event. -/
def logEvent (s : PState) (e : Ev) : PState :=
  { s with events := s.events ++ [e] }

/-- External collaborators of the pipeline; every field models one call
that the Python code awaits, with `Except` where it can raise.
`strftime` stands for `datetime.fromtimestamp(t).strftime(...)`, whose
exact rendering no claim depends on. -/
structure WorldOracle (Frame : Type) where
  download : String → String → Except String Bytes
  decodeTiff : Bytes → Except String (List Frame)
  image_to_string : Frame → Except String String
  analyze : String → Except String (List AnalyzerResult)
  anonymize : String → List AnalyzerResult → Except String String
  create : String → Except String String
  send_fax_email : String → String → FaxRecord → SendOutcome
  strftime : Int → String

/-- Static configuration of one `FaxProcessor` instance: the parsed sender
mappings, whether `HIPAA_MODE` enabled the redactor, and the classifier
environment. -/
structure FaxProcessorCfg where
  sender_mappings : List (String × String)
  hipaa_mode : Bool
  classifier_env : ClassifierEnv

/-- The bytes-level `process_tiff` as called by the pipeline: `Image.open`
decoding (which can raise, re-raised by the source) followed by the
frame-level extraction. -/
def process_tiff_bytes {Frame : Type} (o : WorldOracle Frame)
    (tiff_data : Bytes) : Except String String :=
  match o.decodeTiff tiff_data with
  | .error e => .error e
  | .ok frames => process_tiff o.image_to_string frames

/-- The staged-file path `f"tmp/fax_\x7bformatted_time\x7d_\x7bfax_id\x7d.pdf"`. -/
def pdfFilenameFor {Frame : Type} (o : WorldOracle Frame)
    (fax : FaxRecord) : String :=
  "tmp/fax_" ++ o.strftime fax.time ++ "_" ++ fax.id ++ ".pdf"

/-- Embeds `FaxProcessor._cleanup_pdf`: remove the file if it exists; the
surrounding `except` never fires with `os.remove` modelled reliable. -/
def cleanup_pdf (s : PState) (pdf_path : String) : PState :=
  if fileExists s pdf_path then removeFile s pdf_path else s

/-- Embeds `FaxProcessor._process_known_sender` (fax_processor.py lines
92-109): download the print-ready PDF, stage it, and return the mapped
document type; ANY failure is caught, logged, and turned into `None` —
including a `KeyError` on the mapping lookup, which the caller's guard
makes unreachable. -/
def process_known_sender {Frame : Type} (o : WorldOracle Frame)
    (cfg : FaxProcessorCfg) (fax_id from_name pdf_filename : String)
    (s : PState) : PState × Option Classification :=
  match o.download fax_id "pdf" with
  | .error _ => (s, none)
  | .ok _content =>
    let s := writeFile s pdf_filename
    match dictLookup cfg.sender_mappings from_name with
    | none => (s, none)
    | some doc_type => (s, some ⟨doc_type⟩)

/-- Embeds `FaxProcessor._process_unknown_sender` (fax_processor.py lines
111-136): download both representations, stage the PDF, OCR the TIFF,
optionally redact, classify; ANY failure is caught, logged, and turned
into `None`.  `redact_phi` is total, so the redaction stage cannot take
the `None` path. -/
def process_unknown_sender {Frame : Type} (o : WorldOracle Frame)
    (cfg : FaxProcessorCfg) (fax_id pdf_filename : String)
    (s : PState) : PState × Option Classification :=
  match o.download fax_id "tiff" with
  | .error _ => (s, none)
  | .ok tiff_content =>
    match o.download fax_id "pdf" with
    | .error _ => (s, none)
    | .ok _pdf_content =>
      let s := writeFile s pdf_filename
      let s := logEvent s .ocrInvoked
      match process_tiff_bytes o tiff_content with
      | .error _ => (s, none)
      | .ok ocr_text =>
        let (s, ocr_text) :=
          if cfg.hipaa_mode then
            (logEvent s .redactInvoked,
             (redact_phi ⟨o.analyze, o.anonymize⟩ ocr_text).redacted_text)
          else (s, ocr_text)
        let s := logEvent s .classifyInvoked
        match classify_text cfg.classifier_env ⟨o.create⟩ ocr_text with
        | .error _ => (s, none)
        | .ok c => (s, some c)

/-- Embeds `FaxProcessor._send_email` (fax_processor.py lines 147-163):
one dispatch attempt; on `True` the staged file is cleaned up, on `False`
or an exception nothing further happens (the exception is caught).  The
source reads the document type with `.get("document_type",
"Uncategorized")`; both producers always populate the key, so the default
is dead and the field is read directly. -/
def send_email {Frame : Type} (o : WorldOracle Frame) (_fax_id : String)
    (result : Classification) (pdf_filename : String)
    (fax_metadata : FaxRecord) (s : PState) : PState :=
  let doc_type := result.document_type
  let outcome := o.send_fax_email doc_type pdf_filename fax_metadata
  let s := logEvent s (.emailAttempt doc_type outcome)
  match outcome with
  | .sent => cleanup_pdf s pdf_filename
  | .notSent => s
  | .raised _ => s

/-- Embeds `FaxProcessor._handle_processing_failure` (fax_processor.py
lines 165-180).  Dead code for well-formed records — see the section
comment — but embedded for completeness. -/
def handle_processing_failure {Frame : Type} (o : WorldOracle Frame)
    (_fax_id pdf_filename : String) (fax_metadata : FaxRecord)
    (s : PState) : PState :=
  let outcome := o.send_fax_email "Uncategorized" pdf_filename fax_metadata
  let s := logEvent s (.emailAttempt "Uncategorized" outcome)
  match outcome with
  | .sent => cleanup_pdf s pdf_filename
  | .notSent => s
  | .raised _ => s

/-- Embeds `FaxProcessor._process_single_fax` (fax_processor.py lines
69-90) for a well-formed record: choose the path by sender-mapping
membership, then send the email ONLY when the result is truthy and has a
classification — a `None` result (any caught stage failure) silently
skips the send, and no exception reaches the line-88 handler, so
`handle_processing_failure` is never called from here. -/
def process_single_fax {Frame : Type} (o : WorldOracle Frame)
    (cfg : FaxProcessorCfg) (fax : FaxRecord) (s : PState) : PState :=
  let fax_id := fax.id
  let from_name := fax.fromNameAddressBook
  let pdf_filename := pdfFilenameFor o fax
  let (s, result) :=
    if (dictLookup cfg.sender_mappings from_name).isSome then
      process_known_sender o cfg fax_id from_name pdf_filename s
    else
      process_unknown_sender o cfg fax_id pdf_filename s
  match result with
  | some c => send_email o fax_id c pdf_filename fax s
  | none => s

/-! ### The inlined pipeline of `main.py`

`process_new_faxes` (main.py lines 94-238) carries its own copy of the
per-fax pipeline, run directly by the polling task.  Differences from
`FaxProcessor`: download/OCR/classify failures are converted INLINE to the
hard-coded category "Unknown" and still emailed; a known-sender download
failure propagates to the outer per-fax handler (line 216) which also
emails "Unknown"; there is no redaction stage; and no branch ever deletes
the staged file — `main.py` contains no cleanup call.
-/

/-- The outer per-fax `except` handler of main.py lines 216-232: one
best-effort attempt to send the fax as "Unknown"; its own failure (return
`False` or raise) is only logged. -/
def mainFallbackNotify {Frame : Type} (o : WorldOracle Frame)
    (pdf_filename : String) (fax : FaxRecord) (s : PState) : PState :=
  let outcome := o.send_fax_email "Unknown" pdf_filename fax
  logEvent s (.emailAttempt "Unknown" outcome)

/-- The send of main.py lines 204-214 for a resolved document type: one
attempt, NO cleanup on success; if `send_fax_email` raises, control moves
to the outer handler, which retries as "Unknown". -/
def mainSendResult {Frame : Type} (o : WorldOracle Frame)
    (doc_type pdf_filename : String) (fax : FaxRecord) (s : PState) :
    PState :=
  let outcome := o.send_fax_email doc_type pdf_filename fax
  let s := logEvent s (.emailAttempt doc_type outcome)
  match outcome with
  | .raised _ => mainFallbackNotify o pdf_filename fax s
  | _ => s

/-- Embeds the per-fax body of `process_new_faxes` (main.py lines
128-232) for a well-formed record. -/
def main_process_fax {Frame : Type} (o : WorldOracle Frame)
    (sender_mappings : List (String × String)) (cenv : ClassifierEnv)
    (fax : FaxRecord) (s : PState) : PState :=
  let fax_id := fax.id
  let from_name := fax.fromNameAddressBook
  let pdf_filename := pdfFilenameFor o fax
  if (dictLookup sender_mappings from_name).isSome then
    -- known sender: the download is NOT wrapped in an inner try, a failure
    -- reaches the outer per-fax handler
    match o.download fax_id "pdf" with
    | .error _ => mainFallbackNotify o pdf_filename fax s
    | .ok _content =>
      let s := writeFile s pdf_filename
      match dictLookup sender_mappings from_name with
      | none => mainFallbackNotify o pdf_filename fax s  -- unreachable KeyError
      | some doc_type => mainSendResult o doc_type pdf_filename fax s
  else
    match o.download fax_id "tiff" with
    | .error _ => mainSendResult o "Unknown" pdf_filename fax s
    | .ok tiff_content =>
      match o.download fax_id "pdf" with
      | .error _ => mainSendResult o "Unknown" pdf_filename fax s
      | .ok _pdf_content =>
        let s := writeFile s pdf_filename
        let s := logEvent s .ocrInvoked
        match process_tiff_bytes o tiff_content with
        | .error _ => mainSendResult o "Unknown" pdf_filename fax s
        | .ok ocr_text =>
          let s := logEvent s .classifyInvoked
          match classify_text cenv ⟨o.create⟩ ocr_text with
          | .error _ => mainSendResult o "Unknown" pdf_filename fax s
          | .ok c => mainSendResult o c.document_type pdf_filename fax s

/-- Number of `send_fax_email` attempts recorded in the trace. -/
def emailAttemptCount (s : PState) : Nat :=
  s.events.countP (fun e => match e with
    | .emailAttempt _ _ => true
    | _ => false)

/-- Number of OCR extractions recorded in the trace. -/
def ocrCallCount (s : PState) : Nat :=
  s.events.countP (fun e => match e with
    | .ocrInvoked => true
    | _ => false)

/-- Number of classifier invocations recorded in the trace. -/
def classifyCallCount (s : PState) : Nat :=
  s.events.countP (fun e => match e with
    | .classifyInvoked => true
    | _ => false)

/-! ### Queue consumer and graceful stop

Small-step interleaving model of the concurrency-relevant fragment of
`FaxProcessor`:

```
async def stop_processing(self):            # lines 43-48
    self.is_processing = False
    while not self.processing_queue.empty():
        await asyncio.sleep(1)

async def _process_queue(self):             # lines 55-67
    while self.is_processing:
        if not self.processing_queue.empty():
            fax = await self.processing_queue.get()
            await self._process_single_fax(fax)
            self.processing_queue.task_done()
        else:
            await asyncio.sleep(1)
```

Each atomic step is one segment of a coroutine between suspension points
(asyncio is cooperatively scheduled, so a segment with no `await` runs
without interleaving).  `stop_processing` sets the flag and reaches its
wait loop in one step; the consumer evaluates its `while` guard, tests
and pops the queue, processes one fax (the body of `_process_single_fax`
touches none of the shared variables modelled here), or sleeps.  The
poller side is the `enqueue` step.
-/

/-- Program counter of the `_process_queue` consumer task. -/
inductive ConsumerPC
  | loopHead                     -- about to evaluate: while self.is_processing
  | bodyTop                      -- passed the guard, about to test queue.empty()
  | processing (fax : FaxRecord) -- inside _process_single_fax / task_done
  | sleeping                     -- in the empty-queue asyncio.sleep(1)
  | exited                       -- left the while loop, task finished
deriving DecidableEq, Repr

/-- Program counter of a `stop_processing` caller. -/
inductive StopperPC
  | idle      -- stop_processing not yet called
  | waiting   -- inside: while not queue.empty(): await sleep(1)
  | returned  -- stop_processing returned
deriving DecidableEq, Repr

/-- Shared state of the processor plus both program counters. -/
structure SysState where
  is_processing : Bool
  queue : List FaxRecord
  consumer : ConsumerPC
  stopper : StopperPC
deriving DecidableEq, Repr

/-- One interleaved atomic step of the consumer, the stopper, or the
enqueueing poller. -/
inductive SysStep : SysState → SysState → Prop
  | stopCall (s : SysState) (h : s.stopper = .idle) :
      SysStep s { s with is_processing := false, stopper := .waiting }
  | consumerExit (s : SysState) (hc : s.consumer = .loopHead)
      (hp : s.is_processing = false) :
      SysStep s { s with consumer := .exited }
  | consumerEnter (s : SysState) (hc : s.consumer = .loopHead)
      (hp : s.is_processing = true) :
      SysStep s { s with consumer := .bodyTop }
  | consumerDequeue (s : SysState) (f : FaxRecord) (rest : List FaxRecord)
      (hc : s.consumer = .bodyTop) (hq : s.queue = f :: rest) :
      SysStep s { s with consumer := .processing f, queue := rest }
  | consumerSleep (s : SysState) (hc : s.consumer = .bodyTop)
      (hq : s.queue = []) :
      SysStep s { s with consumer := .sleeping }
  | consumerWake (s : SysState) (hc : s.consumer = .sleeping) :
      SysStep s { s with consumer := .loopHead }
  | consumerDone (s : SysState) (f : FaxRecord)
      (hc : s.consumer = .processing f) :
      SysStep s { s with consumer := .loopHead }
  | stopperReturn (s : SysState) (hs : s.stopper = .waiting)
      (hq : s.queue = []) :
      SysStep s { s with stopper := .returned }
  | stopperSpin (s : SysState) (hs : s.stopper = .waiting)
      (hq : s.queue ≠ []) :
      SysStep s s
  | enqueue (s : SysState) (g : FaxRecord) :
      SysStep s { s with queue := s.queue ++ [g] }

/-- The configuration in which the shutdown defect shows: the consumer is
between iterations (at its loop guard), one record is still enqueued, and
`stop_processing` is invoked. -/
def stopScenarioStart (f : FaxRecord) : SysState :=
  { is_processing := true, queue := [f], consumer := .loopHead,
    stopper := .idle }

/-- The state right after the `stop_processing` call ran to its first
suspension point. -/
def stopScenarioAfter (f : FaxRecord) : SysState :=
  { is_processing := false, queue := [f], consumer := .loopHead,
    stopper := .waiting }

/-! ### Concrete instances used by witnesses and counterexamples -/

/-- Classifier environment with every variable unset (all defaults apply). -/
def cenv0 : ClassifierEnv := ⟨none, none, none, none, none, none⟩

/-- An Anthropic API call that fails (network error / rate limit). -/
def anthropicFailing : AnthropicOracle := ⟨fun _ => .error "network error"⟩

/-- An Anthropic API call that answers with padded text. -/
def anthropicOk : AnthropicOracle := ⟨fun _ => .ok " Referral "⟩

/-- Presidio engines whose analysis raises. -/
def presidioFailing : PresidioOracle :=
  ⟨fun _ => .error "spacy model not loaded", fun _ _ => .error "unused"⟩

/-- Processor configuration with one sender mapping and redaction off. -/
def cfg0 : FaxProcessorCfg := ⟨[("ClinicA", "LabResult")], false, cenv0⟩

/-- A fax from the mapped sender. -/
def fax0 : FaxRecord := ⟨"123", "ClinicA", 1700000000⟩

/-- A fax from an unmapped sender. -/
def fax1 : FaxRecord := ⟨"124", "Oak Street Clinic", 1700000000⟩

/-- World in which every download raises a transport error. -/
def oracleDownFail : WorldOracle Nat :=
  ⟨fun _ _ => .error "HTTPStatusError 503",
   fun _ => .error "unused",
   fun _ => .error "unused",
   fun _ => .error "unused",
   fun _ _ => .error "unused",
   fun _ => .error "unused",
   fun _ _ _ => .notSent,
   fun _ => "20231114_221320"⟩

/-- World in which downloads succeed but TIFF decoding raises. -/
def oracleOcrFail : WorldOracle Nat :=
  ⟨fun _ _ => .ok [1, 2, 3],
   fun _ => .error "UnidentifiedImageError",
   fun _ => .error "unused",
   fun _ => .error "unused",
   fun _ _ => .error "unused",
   fun _ => .error "unused",
   fun _ _ _ => .notSent,
   fun _ => "20231114_221320"⟩

/-- World in which every stage succeeds and email dispatch reports
success. -/
def oracleHappy : WorldOracle Nat :=
  ⟨fun _ _ => .ok [1, 2, 3],
   fun _ => .ok [0],
   fun _ => .ok " Referral request ",
   fun _ => .ok [],
   fun t _ => .ok t,
   fun _ => .ok " Referral ",
   fun _ _ _ => .sent,
   fun _ => "20231114_221320"⟩

/-- Frames of a small decoded TIFF. -/
def frames0 : List Nat := [5, 6, 7]

/-- Per-frame Tesseract output used in the OCR witness. -/
def gOk : Nat → String := fun n => " page " ++ toString n ++ " "

/-- A Tesseract oracle that succeeds on every frame. -/
def ocrOk : Nat → Except String String := fun n => .ok (gOk n)

/-- A 4001-character text ending in X. -/
def c9TextA : String := String.mk (List.replicate 4000 'a' ++ ['X'])

/-- A 4001-character text agreeing with `c9TextA` on the first 4000
characters but ending in Y. -/
def c9TextB : String := String.mk (List.replicate 4000 'a' ++ ['Y'])

/-! ### Helper lemmas -/

/-- Python split never yields an empty list of pieces. -/
theorem pySplitChar_ne_nil (sep : Char) (l : List Char) :
    pySplitChar sep l ≠ [] := by
  induction l with
  | nil => simp [pySplitChar]
  | cons c rest ih =>
    simp only [pySplitChar]
    split
    · simp
    · cases h : pySplitChar sep rest <;> simp

/-- Python split of a string never yields an empty list of pieces. -/
theorem pySplit_ne_nil (sep : Char) (s : String) : pySplit sep s ≠ [] := by
  simpa [pySplit] using pySplitChar_ne_nil sep s.data

/-! ### Claim C6 -/

/-- Claim C6: for every input text the PHI redaction operation never
raises to its caller (it is a total function into `RedactedInfo`); on any
internal failure — the Presidio analyzer or anonymizer raising — it
returns the original unmodified text together with an entity count of
zero and the diagnostic `error` field set, and on success it returns the
anonymized text with the detected entity count and no error flag. -/
theorem c6_redact_never_raises (o : PresidioOracle) (text e : String) :
    ((o.analyze text = .error e ∨
        ∃ rs, o.analyze text = .ok rs ∧ o.anonymize text rs = .error e) →
      redact_phi o text = ⟨text, [], 0, some e⟩) ∧
    (∀ rs anon, o.analyze text = .ok rs → o.anonymize text rs = .ok anon →
      redact_phi o text =
        ⟨anon, summarizeRedactions rs, rs.length, none⟩) := by
  constructor
  · rintro (h | ⟨rs, h1, h2⟩)
    · simp [redact_phi, h]
    · simp [redact_phi, h1, h2]
  · intro rs anon h1 h2
    simp [redact_phi, h1, h2]

/-- Witness for C6: a failing analyzer on a concrete text. -/
theorem c6_witness :
    redact_phi presidioFailing "Patient MRN 12345" =
      ⟨"Patient MRN 12345", [], 0, some "spacy model not loaded"⟩ :=
  (c6_redact_never_raises presidioFailing "Patient MRN 12345"
    "spacy model not loaded").1 (Or.inl rfl)

/-! ### Claim C7 -/

/-- Counterexample to C7 as stated: with the default configuration (whose
fallback label is "Uncategorized") and an API call that fails with a
network error, `classify_text` returns the error to its caller — it does
NOT return the configured default label. -/
theorem c7_counterexample :
    classify_text cenv0 anthropicFailing "sample document text" =
      .error "network error" ∧
    classify_text cenv0 anthropicFailing "sample document text" ≠
      .ok ⟨"Uncategorized"⟩ := by
  have h1 : classify_text cenv0 anthropicFailing "sample document text" =
      .error "network error" := rfl
  exact ⟨h1, by rw [h1]; exact fun h => Except.noConfusion h⟩

/-- Claim C7 (amended): `classify_text` returns a category label built
from the stripped model response on success, and on any internal failure
it raises — the error propagates to its caller (which is then responsible
for substituting a fallback, as `main.py` does with "Unknown"); the
configured default label only appears inside the prompt, instructing the
model to return it when no category matches. -/
theorem c7_classify_raises_on_failure (env : ClassifierEnv)
    (o : AnthropicOracle) (text e r : String) :
    (o.create (buildPrompt env text) = .error e →
      classify_text env o text = .error e) ∧
    (o.create (buildPrompt env text) = .ok r →
      classify_text env o text = .ok ⟨pyStrip r⟩) := by
  have hcat : pySplit ',' (getenvD env.classification_categories "") ≠ [] :=
    pySplit_ne_nil _ _
  constructor <;> intro h <;> simp [classify_text, hcat, h]

/-- Witness for C7 (amended): a successful API response is stripped and
returned. -/
theorem c7_witness :
    classify_text cenv0 anthropicOk "note text" = .ok ⟨"Referral"⟩ :=
  (c7_classify_raises_on_failure cenv0 anthropicOk "note text"
    "e" " Referral ").2 rfl

/-! ### Claim C9 -/

/-- Claim C9: classification depends only on the first 4000 characters of
the extracted text — any two inputs agreeing on their first 4000 code
points produce, under the same environment configuration, the identical
classification prompt, and hence the identical `classify_text` result
against the same API oracle. -/
theorem c9_classification_uses_first_4000 (env : ClassifierEnv)
    (o : AnthropicOracle) (t1 t2 : String)
    (h : pySlice t1 4000 = pySlice t2 4000) :
    buildPrompt env t1 = buildPrompt env t2 ∧
    classify_text env o t1 = classify_text env o t2 := by
  have hp : buildPrompt env t1 = buildPrompt env t2 := by
    unfold buildPrompt
    rw [h]
  refine ⟨hp, ?_⟩
  unfold classify_text
  rw [hp]

/-- Witness for C9: two 4001-character texts differing only in their last
character yield the same prompt and the same classification result. -/
theorem c9_witness :
    buildPrompt cenv0 c9TextA = buildPrompt cenv0 c9TextB ∧
    classify_text cenv0 anthropicFailing c9TextA =
      classify_text cenv0 anthropicFailing c9TextB := by
  refine c9_classification_uses_first_4000 cenv0 anthropicFailing
    c9TextA c9TextB ?_
  show String.mk ((List.replicate 4000 'a' ++ ['X']).take 4000) =
    String.mk ((List.replicate 4000 'a' ++ ['Y']).take 4000)
  rw [List.take_left' (List.length_replicate 4000 'a'),
    List.take_left' (List.length_replicate 4000 'a')]

/-! ### Claim C10 -/

/-- The frame-collection loop gathers exactly `fuel` frames starting at
index `i`, stopping early at the end of the image. -/
theorem collectPages_eq_take {Frame : Type} (frames : List Frame) :
    ∀ (fuel i : Nat), collectPages frames i fuel = (frames.drop i).take fuel := by
  intro fuel
  induction fuel with
  | zero => intro i; simp [collectPages]
  | succ n ih =>
    intro i
    rw [collectPages]
    cases h : frames.get? i with
    | none =>
      have hlen : frames.length ≤ i := List.get?_eq_none.mp h
      rw [List.drop_eq_nil_of_le hlen]
      simp
    | some page =>
      have hlt : i < frames.length := by
        by_contra hge
        rw [List.get?_eq_none.mpr (Nat.le_of_not_lt hge)] at h
        exact Option.noConfusion h
      have hdrop : frames.drop i = frames[i] :: frames.drop (i + 1) :=
        List.drop_eq_getElem_cons hlt
      have hpage : frames[i] = page := by
        have := List.get?_eq_get hlt
        rw [this] at h
        exact Option.some.inj h
      rw [hdrop, hpage, List.take_succ_cons, ih (i + 1)]

/-- When OCR succeeds on every listed page, the page loop returns the
stripped per-page texts in order (the starting page number only feeds
logging). -/
theorem ocrPagesLoop_ok {Frame : Type} (ocr : Frame → Except String String)
    (g : Frame → String) :
    ∀ (l : List Frame) (i : Nat), (∀ p ∈ l, ocr p = .ok (g p)) →
      ocrPagesLoop ocr l i = .ok (l.map (fun p => pyStrip (g p))) := by
  intro l
  induction l with
  | nil => intro i _; simp [ocrPagesLoop]
  | cons p rest ih =>
    intro i h
    have hp : ocr p = .ok (g p) := h p (by simp)
    have hrest := ih (i + 1) (fun q hq => h q (by simp [hq]))
    simp [ocrPagesLoop, process_page, hp, hrest]

/-- Claim C10: OCR extraction processes at most the first 1000 frames of
the decoded TIFF — the result on any frame list equals the result on its
first 1000 frames, so frames beyond the 1000th are silently omitted
rather than reported as an error; and when per-page OCR succeeds, the
returned text is the stripped per-page output of those at most 1000
pages, joined in page order by the page-break marker. -/
theorem c10_at_most_1000_pages {Frame : Type}
    (ocr : Frame → Except String String) (frames : List Frame)
    (g : Frame → String) :
    process_tiff ocr frames = process_tiff ocr (frames.take 1000) ∧
    ((∀ p ∈ frames.take 1000, ocr p = .ok (g p)) →
      process_tiff ocr frames =
        .ok (pyJoin pageBreakMarker
          ((frames.take 1000).map (fun p => pyStrip (g p))))) := by
  have hc : collectPages frames 0 1000 = frames.take 1000 := by
    simpa using collectPages_eq_take frames 1000 0
  have hc2 : collectPages (frames.take 1000) 0 1000 = frames.take 1000 := by
    simpa [List.take_take] using collectPages_eq_take (frames.take 1000) 1000 0
  constructor
  · unfold process_tiff
    rw [hc, hc2]
  · intro h
    unfold process_tiff
    rw [hc, ocrPagesLoop_ok ocr g _ 0 h]

/-- Witness for C10: a three-frame TIFF with successful OCR yields the
three stripped page texts joined by the marker. -/
theorem c10_witness :
    process_tiff ocrOk frames0 = process_tiff ocrOk (frames0.take 1000) ∧
    process_tiff ocrOk frames0 =
      .ok (pyJoin pageBreakMarker
        ((frames0.take 1000).map (fun p => pyStrip (gOk p)))) :=
  ⟨(c10_at_most_1000_pages ocrOk frames0 gOk).1,
   (c10_at_most_1000_pages ocrOk frames0 gOk).2 (by
      intro p hp
      fin_cases hp <;> rfl)⟩

/-! ### Claim C8 -/

/-- Lookup after a Python-style dict insert: the inserted key reads the
new value, every other key is unaffected. -/
theorem dictLookup_dictInsert (d : List (String × String)) (k v k2 : String) :
    dictLookup (dictInsert d k v) k2 =
      if k = k2 then some v else dictLookup d k2 := by
  induction d with
  | nil => simp [dictInsert, dictLookup]
  | cons hd rest ih =>
    obtain ⟨k0, v0⟩ := hd
    by_cases h0 : k0 = k
    · subst h0
      simp only [dictInsert, if_pos rfl, dictLookup]
      by_cases h2 : k0 = k2
      · subst h2; simp
      · simp [h2, dictLookup]
    · simp only [dictInsert, if_neg h0, dictLookup]
      by_cases h2 : k0 = k2
      · subst h2
        have : ¬k = k0 := fun h => h0 h.symm
        simp [this]
      · simp [h2, ih]

/-- A malformed entry anywhere in the list makes the parsing loop raise. -/
theorem buildMappingsLoop_error (entries : List String) :
    ∀ acc, (∃ e ∈ entries, (pySplit ':' e).length ≠ 2) →
      ∃ err, buildMappingsLoop entries acc = .error err := by
  induction entries with
  | nil => intro acc h; simp at h
  | cons a rest ih =>
    intro acc h
    obtain ⟨e, he, hlen⟩ := h
    rw [List.mem_cons] at he
    rcases he with he | he
    · subst he
      rw [buildMappingsLoop]
      split
      · rename_i sender doc_type hsp
        rw [hsp] at hlen
        simp at hlen
      · exact ⟨_, rfl⟩
    · rw [buildMappingsLoop]
      split
      · exact ih _ ⟨e, he, hlen⟩
      · exact ⟨_, rfl⟩

/-- When every entry is well formed the parsing loop succeeds, and lookup
in the resulting dict is the last matching entry, falling back to the
accumulator. -/
theorem buildMappingsLoop_ok (entries : List String) :
    ∀ acc, (∀ e ∈ entries, (pySplit ':' e).length = 2) →
      ∃ m, buildMappingsLoop entries acc = .ok m ∧
        ∀ k, dictLookup m k =
          match entriesLookup entries k with
          | some v => some v
          | none => dictLookup acc k := by
  induction entries with
  | nil =>
    intro acc _
    exact ⟨acc, rfl, fun k => by simp [entriesLookup]⟩
  | cons a rest ih =>
    intro acc hwf
    have ha : (pySplit ':' a).length = 2 := hwf a (by simp)
    obtain ⟨sender, doc_type, hsp⟩ := List.length_eq_two.mp ha
    rw [buildMappingsLoop, hsp]
    obtain ⟨m, hm, hlk⟩ :=
      ih (dictInsert acc (pyStrip sender) (pyStrip doc_type))
        (fun e he => hwf e (List.mem_cons_of_mem a he))
    refine ⟨m, hm, fun k => ?_⟩
    rw [hlk k]
    rw [entriesLookup, hsp]
    cases h : entriesLookup rest k with
    | some v => simp
    | none =>
      by_cases hk : pyStrip sender = k <;>
        simp [dictLookup_dictInsert, hk]

/-- Counterexample to C8 as stated: the well-formed configuration string
"a:x,a:y" parses without error, but the pair (a, x) does NOT appear in
the resulting mapping — the later entry for the same sender overwrote
it. -/
theorem c8_counterexample :
    buildSenderMappings "a:x,a:y" = .ok [("a", "y")] ∧
    ("a", "x") ∉ ([("a", "y")] : List (String × String)) := by
  constructor
  · rfl
  · decide

/-- Claim C8 (amended): sender-mapping construction fails fast — for
every non-empty configuration string, if any comma-separated entry does
not split on ":" into exactly two pieces, construction raises; and for
every well-formed string every pair appears in the mapping with
whitespace-stripped sender key and category value, except that when
several entries share the same stripped sender, the LAST such pair is the
one that appears (later entries overwrite earlier ones) — equivalently,
lookup of any key returns the last matching entry. -/
theorem c8_mapping_fail_fast (str : String) (hne : str ≠ "") :
    ((∃ entry ∈ pySplit ',' str, (pySplit ':' entry).length ≠ 2) →
      ∃ err, buildSenderMappings str = .error err) ∧
    ((∀ entry ∈ pySplit ',' str, (pySplit ':' entry).length = 2) →
      ∃ m, buildSenderMappings str = .ok m ∧
        ∀ k, dictLookup m k = entriesLookup (pySplit ',' str) k) := by
  constructor
  · intro h
    rw [buildSenderMappings, if_neg hne]
    exact buildMappingsLoop_error _ _ h
  · intro h
    obtain ⟨m, hm, hlk⟩ := buildMappingsLoop_ok (pySplit ',' str) [] h
    refine ⟨m, ?_, fun k => ?_⟩
    · rw [buildSenderMappings, if_neg hne]
      exact hm
    · rw [hlk k]
      cases hE : entriesLookup (pySplit ',' str) k <;> simp [dictLookup]

/-- Witness for C8 (amended): a well-formed two-entry configuration with
padded whitespace parses, and lookup matches the entry characterization. -/
theorem c8_witness :
    ∃ m, buildSenderMappings "ClinicA : LabResult,ClinicB:Referral" = .ok m ∧
      ∀ k, dictLookup m k =
        entriesLookup (pySplit ',' "ClinicA : LabResult,ClinicB:Referral") k :=
  (c8_mapping_fail_fast "ClinicA : LabResult,ClinicB:Referral"
    (by decide)).2 (by decide)

/-! ### Claim C1 -/

/-- Claim C1 names the intended invariant that a stage failure is
converted into the fallback category and still reaches notification; the
code violates it: when the known-sender print-ready download fails,
`_process_known_sender` catches the error and returns `None`, the guard
in `_process_single_fax` then skips `_send_email`, and no exception
reaches the failure handler — the state is returned entirely unchanged:
no category is resolved and zero notification attempts are made. -/
theorem c1_fetch_failure_drops_record {Frame : Type} (o : WorldOracle Frame)
    (cfg : FaxProcessorCfg) (fax : FaxRecord) (s : PState) (e : String)
    (hknown :
      (dictLookup cfg.sender_mappings fax.fromNameAddressBook).isSome = true)
    (hdl : o.download fax.id "pdf" = .error e) :
    process_single_fax o cfg fax s = s ∧
    emailAttemptCount (process_single_fax o cfg fax s) =
      emailAttemptCount s := by
  have h : process_single_fax o cfg fax s = s := by
    unfold process_single_fax process_known_sender
    simp [hknown, hdl]
  exact ⟨h, by rw [h]⟩

/-- Witness for C1: the mapped sender "ClinicA" with a failing download —
the record is dropped without any notification attempt. -/
theorem c1_witness :
    process_single_fax oracleDownFail cfg0 fax0 initState = initState ∧
    emailAttemptCount (process_single_fax oracleDownFail cfg0 fax0 initState) =
      emailAttemptCount initState :=
  c1_fetch_failure_drops_record oracleDownFail cfg0 fax0 initState
    "HTTPStatusError 503" (by decide) rfl

/-! ### Claim C2 -/

/-- Claim C2 names the intended invariant that no failure path leaves a
record with zero notification attempts; the code violates it: for an
unknown sender whose downloads succeed but whose OCR extraction raises,
`_process_unknown_sender` catches the error and returns `None`, the email
guard skips the send, and the run ends with the staged PDF present on
disk and ZERO notification attempts — the exact half-processed state
(file staged, nothing sent) the specification forbids; the fallback
handler `_handle_processing_failure` is never invoked. -/
theorem c2_ocr_failure_zero_attempts {Frame : Type} (o : WorldOracle Frame)
    (cfg : FaxProcessorCfg) (fax : FaxRecord) (e : String)
    (tiffB pdfB : Bytes)
    (hunknown :
      (dictLookup cfg.sender_mappings fax.fromNameAddressBook).isSome = false)
    (htiff : o.download fax.id "tiff" = .ok tiffB)
    (hpdf : o.download fax.id "pdf" = .ok pdfB)
    (hocr : process_tiff_bytes o tiffB = .error e) :
    emailAttemptCount (process_single_fax o cfg fax initState) = 0 ∧
    pdfFilenameFor o fax ∈ (process_single_fax o cfg fax initState).files := by
  unfold process_single_fax process_unknown_sender
  simp [hunknown, htiff, hpdf, hocr, writeFile, logEvent, initState,
    emailAttemptCount]

/-- Witness for C2: an unmapped sender, successful downloads, and a TIFF
that fails to decode. -/
theorem c2_witness :
    emailAttemptCount (process_single_fax oracleOcrFail cfg0 fax1 initState) = 0 ∧
    pdfFilenameFor oracleOcrFail fax1 ∈
      (process_single_fax oracleOcrFail cfg0 fax1 initState).files :=
  c2_ocr_failure_zero_attempts oracleOcrFail cfg0 fax1
    "UnidentifiedImageError" [1, 2, 3] [1, 2, 3] (by decide) rfl rfl rfl

/-! ### Claim C3 -/

/-- Counterexample to C3 as stated: in the `main.py` copy of the pipeline
(`process_new_faxes`, one of the two code paths the claim covers), a
known-sender fax whose email dispatch reports success leaves the staged
file PRESENT on disk — the success branch contains no deletion. -/
theorem c3_counterexample :
    Ev.emailAttempt "LabResult" .sent ∈
      (main_process_fax oracleHappy cfg0.sender_mappings cenv0 fax0
        initState).events ∧
    pdfFilenameFor oracleHappy fax0 ∈
      (main_process_fax oracleHappy cfg0.sender_mappings cenv0 fax0
        initState).files := by
  decide

/-- Claim C3 (amended): in the `FaxProcessor` pipeline the staged file is
deleted if and only if the notification dispatch reports success — a
successful send is always followed by deletion, a failed or raising send
(or a run that never reaches the send) leaves every staged file present;
but in the inlined `main.py` pipeline the staged file is NEVER deleted,
even when dispatch succeeds (files only accumulate). -/
theorem c3_deletion_iff_send_success {Frame : Type} (o : WorldOracle Frame)
    (cfg : FaxProcessorCfg) (mappings : List (String × String))
    (cenv : ClassifierEnv) (fax : FaxRecord) (s : PState) :
    ((Ev.fileWrite (pdfFilenameFor o fax) ∈
        (process_single_fax o cfg fax initState).events ∧
      pdfFilenameFor o fax ∉ (process_single_fax o cfg fax initState).files) ↔
      (∃ d, Ev.emailAttempt d .sent ∈
        (process_single_fax o cfg fax initState).events)) ∧
    (∀ p, p ∈ s.files → p ∈ (main_process_fax o mappings cenv fax s).files) :=
  by
  constructor
  · cases hk : (dictLookup cfg.sender_mappings fax.fromNameAddressBook).isSome with
    | true =>
      cases hdl : o.download fax.id "pdf" with
      | error e =>
        simp [process_single_fax, process_known_sender, hk, hdl, initState]
      | ok b =>
        cases hlk : dictLookup cfg.sender_mappings fax.fromNameAddressBook with
        | none => rw [hlk] at hk; simp at hk
        | some d =>
          cases hsend : o.send_fax_email d (pdfFilenameFor o fax) fax with
          | sent =>
            simp [process_single_fax, process_known_sender, send_email, hk,
              hdl, hlk, hsend, writeFile, logEvent, cleanup_pdf, fileExists,
              removeFile, initState]
          | notSent =>
            simp [process_single_fax, process_known_sender, send_email, hk,
              hdl, hlk, hsend, writeFile, logEvent, initState]
          | raised e =>
            simp [process_single_fax, process_known_sender, send_email, hk,
              hdl, hlk, hsend, writeFile, logEvent, initState]
    | false =>
      cases htiff : o.download fax.id "tiff" with
      | error e =>
        simp [process_single_fax, process_unknown_sender, hk, htiff,
          initState]
      | ok tb =>
        cases hpdf : o.download fax.id "pdf" with
        | error e =>
          simp [process_single_fax, process_unknown_sender, hk, htiff, hpdf,
            initState]
        | ok pb =>
          cases hocr : process_tiff_bytes o tb with
          | error e =>
            simp [process_single_fax, process_unknown_sender, hk, htiff,
              hpdf, hocr, writeFile, logEvent, initState]
          | ok t =>
            cases hhip : cfg.hipaa_mode with
            | false =>
              cases hcl : classify_text cfg.classifier_env ⟨o.create⟩ t with
              | error e =>
                simp [process_single_fax, process_unknown_sender, hk, htiff,
                  hpdf, hocr, hhip, hcl, writeFile, logEvent, initState]
              | ok c =>
                cases hsend : o.send_fax_email c.document_type
                    (pdfFilenameFor o fax) fax with
                | sent =>
                  simp [process_single_fax, process_unknown_sender,
                    send_email, hk, htiff, hpdf, hocr, hhip, hcl, hsend,
                    writeFile, logEvent, cleanup_pdf, fileExists, removeFile,
                    initState]
                | notSent =>
                  simp [process_single_fax, process_unknown_sender,
                    send_email, hk, htiff, hpdf, hocr, hhip, hcl, hsend,
                    writeFile, logEvent, initState]
                | raised e =>
                  simp [process_single_fax, process_unknown_sender,
                    send_email, hk, htiff, hpdf, hocr, hhip, hcl, hsend,
                    writeFile, logEvent, initState]
            | true =>
              cases hcl : classify_text cfg.classifier_env ⟨o.create⟩
                  (redact_phi ⟨o.analyze, o.anonymize⟩ t).redacted_text with
              | error e =>
                simp [process_single_fax, process_unknown_sender, hk, htiff,
                  hpdf, hocr, hhip, hcl, writeFile, logEvent, initState]
              | ok c =>
                cases hsend : o.send_fax_email c.document_type
                    (pdfFilenameFor o fax) fax with
                | sent =>
                  simp [process_single_fax, process_unknown_sender,
                    send_email, hk, htiff, hpdf, hocr, hhip, hcl, hsend,
                    writeFile, logEvent, cleanup_pdf, fileExists, removeFile,
                    initState]
                | notSent =>
                  simp [process_single_fax, process_unknown_sender,
                    send_email, hk, htiff, hpdf, hocr, hhip, hcl, hsend,
                    writeFile, logEvent, initState]
                | raised e =>
                  simp [process_single_fax, process_unknown_sender,
                    send_email, hk, htiff, hpdf, hocr, hhip, hcl, hsend,
                    writeFile, logEvent, initState]
  · intro p hp
    have hmono : ∀ (q : String) (s2 : PState),
        p ∈ s2.files → p ∈ (writeFile s2 q).files := by
      intro q s2 h2
      simp only [writeFile]
      split
      · exact h2
      · exact List.mem_append_left _ h2
    cases hk : (dictLookup mappings fax.fromNameAddressBook).isSome with
    | true =>
      cases hdl : o.download fax.id "pdf" with
      | error e =>
        simpa [main_process_fax, mainFallbackNotify, hk, hdl, logEvent]
          using hp
      | ok b =>
        cases hlk : dictLookup mappings fax.fromNameAddressBook with
        | none => rw [hlk] at hk; simp at hk
        | some d =>
          cases hsend : o.send_fax_email d (pdfFilenameFor o fax) fax with
          | sent =>
            simp only [main_process_fax, mainSendResult, hk, hdl, hlk,
              hsend, logEvent, if_true]
            exact hmono _ _ hp
          | notSent =>
            simp only [main_process_fax, mainSendResult, hk, hdl, hlk,
              hsend, logEvent, if_true]
            exact hmono _ _ hp
          | raised e =>
            simp only [main_process_fax, mainSendResult, mainFallbackNotify,
              hk, hdl, hlk, hsend, logEvent, if_true]
            exact hmono _ _ hp
    | false =>
      cases htiff : o.download fax.id "tiff" with
      | error e =>
        cases hsend : o.send_fax_email "Unknown" (pdfFilenameFor o fax)
            fax <;>
          simpa [main_process_fax, mainSendResult, mainFallbackNotify, hk,
            htiff, hsend, logEvent] using hp
      | ok tb =>
        cases hpdf : o.download fax.id "pdf" with
        | error e =>
          cases hsend : o.send_fax_email "Unknown" (pdfFilenameFor o fax)
              fax <;>
            simpa [main_process_fax, mainSendResult, mainFallbackNotify, hk,
              htiff, hpdf, hsend, logEvent] using hp
        | ok pb =>
          cases hocr : process_tiff_bytes o tb with
          | error e =>
            cases hsend : o.send_fax_email "Unknown" (pdfFilenameFor o fax)
                fax <;>
              (simp only [main_process_fax, mainSendResult,
                mainFallbackNotify, hk, htiff, hpdf, hocr, hsend, logEvent];
               exact hmono _ _ hp)
          | ok t =>
            cases hcl : classify_text cenv ⟨o.create⟩ t with
            | error e =>
              cases hsend : o.send_fax_email "Unknown" (pdfFilenameFor o fax)
                  fax <;>
                (simp only [main_process_fax, mainSendResult,
                  mainFallbackNotify, hk, htiff, hpdf, hocr, hcl, hsend,
                  logEvent];
                 exact hmono _ _ hp)
            | ok c =>
              cases hsend : o.send_fax_email c.document_type
                  (pdfFilenameFor o fax) fax <;>
                (simp only [main_process_fax, mainSendResult,
                  mainFallbackNotify, hk, htiff, hpdf, hocr, hcl, hsend,
                  logEvent];
                 exact hmono _ _ hp)

/-- Witness for C3 (amended): a pre-existing staged file survives the
`main.py` pipeline run. -/
theorem c3_witness :
    "x.pdf" ∈ (main_process_fax oracleHappy cfg0.sender_mappings cenv0 fax0
      ⟨["x.pdf"], []⟩).files :=
  (c3_deletion_iff_send_success oracleHappy cfg0 cfg0.sender_mappings cenv0
    fax0 ⟨["x.pdf"], []⟩).2 "x.pdf" (by decide)

/-! ### Claim C4 -/

/-- Claim C4: for every fax whose sender is a key of the sender mapping
and whose print-ready download succeeds, the fast path resolves the
classification to exactly the mapped category — the (single) notification
attempt carries that category and no other — and neither the OCR
extractor nor the text classifier is invoked while processing the
record. -/
theorem c4_fast_path_mapped_category {Frame : Type} (o : WorldOracle Frame)
    (cfg : FaxProcessorCfg) (fax : FaxRecord) (d : String) (b : Bytes)
    (hmap : dictLookup cfg.sender_mappings fax.fromNameAddressBook = some d)
    (hdl : o.download fax.id "pdf" = .ok b) :
    ocrCallCount (process_single_fax o cfg fax initState) = 0 ∧
    classifyCallCount (process_single_fax o cfg fax initState) = 0 ∧
    (∃ out, Ev.emailAttempt d out ∈
      (process_single_fax o cfg fax initState).events) ∧
    (∀ d2 out, Ev.emailAttempt d2 out ∈
      (process_single_fax o cfg fax initState).events → d2 = d) := by
  have hk : (dictLookup cfg.sender_mappings fax.fromNameAddressBook).isSome =
      true := by rw [hmap]; rfl
  cases hsend : o.send_fax_email d (pdfFilenameFor o fax) fax with
  | sent =>
    simp [process_single_fax, process_known_sender, send_email, hk, hmap,
      hdl, hsend, writeFile, logEvent, cleanup_pdf, fileExists, removeFile,
      initState, ocrCallCount, classifyCallCount]
  | notSent =>
    simp [process_single_fax, process_known_sender, send_email, hk, hmap,
      hdl, hsend, writeFile, logEvent, initState, ocrCallCount,
      classifyCallCount]
  | raised e =>
    simp [process_single_fax, process_known_sender, send_email, hk, hmap,
      hdl, hsend, writeFile, logEvent, initState, ocrCallCount,
      classifyCallCount]

/-- Witness for C4: the mapped sender "ClinicA" resolves to "LabResult"
with no OCR or classifier call. -/
theorem c4_witness :
    ocrCallCount (process_single_fax oracleHappy cfg0 fax0 initState) = 0 ∧
    classifyCallCount (process_single_fax oracleHappy cfg0 fax0 initState) = 0 ∧
    (∃ out, Ev.emailAttempt "LabResult" out ∈
      (process_single_fax oracleHappy cfg0 fax0 initState).events) ∧
    (∀ d2 out, Ev.emailAttempt d2 out ∈
      (process_single_fax oracleHappy cfg0 fax0 initState).events →
      d2 = "LabResult") :=
  c4_fast_path_mapped_category oracleHappy cfg0 fax0 "LabResult" [1, 2, 3]
    (by decide) rfl

/-! ### Claim C5 -/

/-- The shutdown-scenario invariant: once `stop_processing` has cleared
the flag while a record is still enqueued and the consumer sits at its
loop guard, every subsequently reachable state keeps the flag cleared,
keeps the record enqueued, keeps the stopper spinning, and has the
consumer at the guard or exited. -/
theorem stopScenario_invariant_step (f : FaxRecord) (a b : SysState)
    (h : SysStep a b)
    (ha : a.is_processing = false ∧ f ∈ a.queue ∧ a.stopper = .waiting ∧
      (a.consumer = .loopHead ∨ a.consumer = .exited)) :
    b.is_processing = false ∧ f ∈ b.queue ∧ b.stopper = .waiting ∧
      (b.consumer = .loopHead ∨ b.consumer = .exited) := by
  obtain ⟨hp, hq, hs, hc⟩ := ha
  cases h with
  | stopCall h => rw [hs] at h; exact absurd h (by simp)
  | consumerExit hc2 hp2 => exact ⟨hp, hq, hs, Or.inr rfl⟩
  | consumerEnter hc2 hp2 => rw [hp] at hp2; exact absurd hp2 (by simp)
  | consumerDequeue f2 rest hc2 hq2 =>
    rcases hc with hc | hc <;> rw [hc] at hc2 <;> exact absurd hc2 (by simp)
  | consumerSleep hc2 hq2 =>
    rcases hc with hc | hc <;> rw [hc] at hc2 <;> exact absurd hc2 (by simp)
  | consumerWake hc2 =>
    rcases hc with hc | hc <;> rw [hc] at hc2 <;> exact absurd hc2 (by simp)
  | consumerDone f2 hc2 =>
    rcases hc with hc | hc <;> rw [hc] at hc2 <;> exact absurd hc2 (by simp)
  | stopperReturn hs2 hq2 => rw [hq2] at hq; exact absurd hq (by simp)
  | stopperSpin hs2 hq2 => exact ⟨hp, hq, hs, hc⟩
  | enqueue g => exact ⟨hp, List.mem_append_left _ hq, hs, hc⟩

/-- Claim C5 names the intended graceful-stop contract (already-enqueued
records are still dequeued and processed, and the stop call terminates);
the code violates it: `stop_processing` clears `is_processing` BEFORE
waiting, so from the configuration where one record is still enqueued and
the consumer is at its loop guard, the stop call is one atomic step, and
in EVERY subsequently reachable interleaving the enqueued record is never
dequeued (the consumer can only exit, never enter the loop body), and
`stop_processing` never returns — its wait loop spins on a queue that
never empties. -/
theorem c5_stop_abandons_enqueued_record (f : FaxRecord) (s : SysState)
    (hreach : Relation.ReflTransGen SysStep (stopScenarioAfter f) s) :
    SysStep (stopScenarioStart f) (stopScenarioAfter f) ∧
    f ∈ s.queue ∧ s.stopper ≠ .returned ∧
    ∀ g, s.consumer ≠ .processing g := by
  have hstep : SysStep (stopScenarioStart f) (stopScenarioAfter f) :=
    SysStep.stopCall (stopScenarioStart f) rfl
  have hinv : s.is_processing = false ∧ f ∈ s.queue ∧
      s.stopper = .waiting ∧
      (s.consumer = .loopHead ∨ s.consumer = .exited) := by
    induction hreach with
    | refl =>
      exact ⟨rfl, by simp [stopScenarioAfter], rfl, Or.inl rfl⟩
    | tail h1 h2 ih => exact stopScenario_invariant_step f _ _ h2 ih
  obtain ⟨hp, hq, hs, hc⟩ := hinv
  refine ⟨hstep, hq, by rw [hs]; simp, fun g => ?_⟩
  rcases hc with hc | hc <;> rw [hc] <;> simp

/-- Witness for C5: the scenario start itself — before any further step
the record is enqueued, the stopper has not returned, and nothing is
being processed. -/
theorem c5_witness :
    SysStep (stopScenarioStart fax0) (stopScenarioAfter fax0) ∧
    fax0 ∈ (stopScenarioAfter fax0).queue ∧
    (stopScenarioAfter fax0).stopper ≠ .returned ∧
    ∀ g, (stopScenarioAfter fax0).consumer ≠ .processing g :=
  c5_stop_abandons_enqueued_record fax0 (stopScenarioAfter fax0)
    Relation.ReflTransGen.refl
